import Mathlib

/-!
Verification of the Product CRUD REST service (`service/routes.py`) against its
natural-language specification.

The route handlers are embedded directly from `src/service/routes.py`.  The
`Product` model (`service/models.py`: the `Category` enum, `serialize`,
`deserialize`, `create`, `update`, `delete`, and the query helpers) is not part
of the source tree, only its callers and tests are; those definitions are
modelled from the spec (sections 3 and 4.1) and are marked as such in their
doc comments.  The database is modelled as an explicit record store threaded
through each handler; HTTP requests and responses are explicit structures.
-/

namespace ProductStore

/-- Modelled from the spec: the closed category enumeration of `service/models.py`
(spec section 3: "UNKNOWN, CLOTHS, FOOD, HOUSEWARES, AUTOMOTIVE, TOOLS"). -/
inductive Category where
  | UNKNOWN
  | CLOTHS
  | FOOD
  | HOUSEWARES
  | AUTOMOTIVE
  | TOOLS
deriving DecidableEq, Repr

/-- Modelled from the spec: the symbolic name of a category member, as a Python
`Enum.name` would produce it. -/
def Category.name : Category → String
  | .UNKNOWN => "UNKNOWN"
  | .CLOTHS => "CLOTHS"
  | .FOOD => "FOOD"
  | .HOUSEWARES => "HOUSEWARES"
  | .AUTOMOTIVE => "AUTOMOTIVE"
  | .TOOLS => "TOOLS"

/-- Modelled from the spec: mapping an incoming category string back to the enum;
an unrecognized value is a validation error (spec section 3). -/
def Category.fromName (s : String) : Option Category :=
  if s = "UNKNOWN" then some .UNKNOWN
  else if s = "CLOTHS" then some .CLOTHS
  else if s = "FOOD" then some .FOOD
  else if s = "HOUSEWARES" then some .HOUSEWARES
  else if s = "AUTOMOTIVE" then some .AUTOMOTIVE
  else if s = "TOOLS" then some .TOOLS
  else none

/-- A decimal number `mantissa * 10 ^ (- exponent)`, kept unreduced so that the
representation (and hence the printed precision, e.g. `12.50` vs `12.5`)
is preserved exactly, as the spec requires of `price`. -/
structure Decimal where
  mantissa : Int
  exponent : Nat
deriving DecidableEq, Repr

/-- JSON values as exchanged by the service: objects are association lists. -/
inductive JValue where
  | jNull
  | jBool (b : Bool)
  | jNum (d : Decimal)
  | jStr (s : String)
  | jArr (elems : List JValue)
  | jObj (fields : List (String × JValue))

/-- Key lookup in a JSON object (first binding wins, as Python dict access). -/
def jlookup (fields : List (String × JValue)) (k : String) : Option JValue :=
  (fields.find? (fun kv => kv.1 == k)).map (fun kv => kv.2)

/-- Modelled from the spec: the `Product` entity of `service/models.py`
(spec section 3): server-assigned optional `id`, `name`, `description`,
decimal `price`, boolean `available`, enumerated `category`. -/
structure Product where
  id : Option Nat
  name : String
  description : String
  price : Decimal
  available : Bool
  category : Category
deriving DecidableEq, Repr

/-- Modelled from the spec: a freshly constructed transient `Product()`:
no id, empty attributes, before `deserialize` populates them. -/
def Product.fresh : Product :=
  { id := none, name := "", description := "", price := { mantissa := 0, exponent := 0 },
    available := false, category := Category.UNKNOWN }

/-- Modelled from the spec: `serialize() -> JSON object` maps all attributes;
`category` is emitted as its symbolic name string, `price` as a decimal
representation preserving precision (spec section 4.1). -/
def Product.serialize (p : Product) : List (String × JValue) :=
  [ ("id", match p.id with
      | some i => JValue.jNum { mantissa := (i : Int), exponent := 0 }
      | none => JValue.jNull),
    ("name", JValue.jStr p.name),
    ("description", JValue.jStr p.description),
    ("price", JValue.jNum p.price),
    ("available", JValue.jBool p.available),
    ("category", JValue.jStr p.category.name) ]

/-- Modelled from the spec: `deserialize(JSON object)` populates the attributes
from the input; a missing required key (`name`, `price`, `available`,
`category`) is a validation error naming the key, an unrecognized `category`
and a type mismatch (e.g. non-boolean `available`) are validation errors
(spec sections 3 and 4.1; `description` is optional per section 3).
The server-assigned `id` is never read from the payload. -/
def Product.deserialize (p : Product) (data : List (String × JValue)) :
    Except String Product :=
  match jlookup data "name" with
  | none => Except.error "Invalid product: missing name"
  | some (JValue.jStr n) =>
    match jlookup data "price" with
    | none => Except.error "Invalid product: missing price"
    | some (JValue.jNum pr) =>
      match jlookup data "available" with
      | none => Except.error "Invalid product: missing available"
      | some (JValue.jBool av) =>
        match jlookup data "category" with
        | none => Except.error "Invalid product: missing category"
        | some (JValue.jStr c) =>
          match Category.fromName c with
          | none => Except.error "Invalid attribute: category"
          | some cat =>
            let desc := match jlookup data "description" with
              | some (JValue.jStr d) => d
              | _ => p.description
            Except.ok { p with name := n, description := desc, price := pr,
                               available := av, category := cat }
        | some _ => Except.error "Invalid type for string [category]"
      | some _ => Except.error "Invalid type for boolean [available]"
    | some _ => Except.error "Invalid type for [price]"
  | some _ => Except.error "Invalid type for string [name]"

/-- The database: the ordered list of persisted records together with the next
serial id the persistence layer will assign. -/
structure DB where
  records : List Product
  nextId : Nat
deriving DecidableEq, Repr

/-- The empty store, serial ids starting at 1. -/
def DB.empty : DB := { records := [], nextId := 1 }

/-- Modelled from the spec: `Product.query.get(product_id)` / find-by-id —
the stored record with the given id, if any. -/
def DB.queryGet (db : DB) (i : Nat) : Option Product :=
  db.records.find? (fun p => p.id == some i)

/-- Modelled from the spec: `product.create()` — the persistence layer assigns
the next serial id and inserts the record (spec sections 3 and 4.1). -/
def Product.create (p : Product) (db : DB) : Product × DB :=
  let p2 := { p with id := some db.nextId }
  (p2, { records := db.records ++ [p2], nextId := db.nextId + 1 })

/-- Modelled from the spec: `product.update()` — persists in-place changes to
the record identified by the id (spec section 4.1). -/
def DB.updateId (db : DB) (i : Nat) (p2 : Product) : DB :=
  { db with records := db.records.map (fun r => if r.id == some i then p2 else r) }

/-- Modelled from the spec: `product.delete()` — removes the persistent record
(spec section 4.1). -/
def DB.deleteId (db : DB) (i : Nat) : DB :=
  { db with records := db.records.filter (fun r => !(r.id == some i)) }

/-- The body of an HTTP response: JSON or empty. -/
inductive Body where
  | empty
  | json (v : JValue)

/-- An HTTP response: status code, body, optional Location header. -/
structure Response where
  status : Nat
  body : Body
  location : Option String

/-- An incoming mutating HTTP request: the optional Content-Type header and the
JSON object body. -/
structure Request where
  contentType : Option String
  reqBody : List (String × JValue)

/-- Embeds `check_content_type` (routes.py lines 49-65): 415 when the
Content-Type header is absent, pass when it equals the expected media type
exactly, 415 otherwise.  `none` means the check passed. -/
def check_content_type (contentTypeHeader : Option String) (content_type : String) :
    Option Response :=
  match contentTypeHeader with
  | none => some { status := 415,
                   body := Body.json (JValue.jStr ("Content-Type must be " ++ content_type)),
                   location := none }
  | some h =>
    if h = content_type then none
    else some { status := 415,
                body := Body.json (JValue.jStr ("Content-Type must be " ++ content_type)),
                location := none }

/-- Embeds `create_products` (routes.py lines 71-94): content-type check, then
deserialize into a fresh product (a validation failure surfaces as 400 per the
spec error-handler mapping), then `create()`, then 201 with the serialized
product and a Location header (set to the placeholder "/"). -/
def create_products (db : DB) (req : Request) : Response × DB :=
  match check_content_type req.contentType "application/json" with
  | some resp => (resp, db)
  | none =>
    match Product.deserialize Product.fresh req.reqBody with
    | Except.error msg => ({ status := 400, body := Body.json (JValue.jStr msg),
                             location := none }, db)
    | Except.ok product =>
      let created := product.create db
      ({ status := 201,
         body := Body.json (JValue.jObj created.1.serialize),
         location := some "/" }, created.2)

/-- Embeds the first, placeholder `get_products` (routes.py lines 100-107):
it ignores the store and returns an empty array. -/
def get_products_placeholder (_db : DB) : Response :=
  { status := 200, body := Body.json (JValue.jArr []), location := none }

/-- Embeds the final `get_products` (routes.py lines 159-167, the binding in
force after the module body runs): 200 with every stored record serialized. -/
def get_products (db : DB) : Response :=
  { status := 200,
    body := Body.json (JValue.jArr (db.records.map (fun p => JValue.jObj p.serialize))),
    location := none }

/-- Embeds `get_product` (routes.py lines 110-120): 404 when no record has the
id, otherwise 200 with the serialized record. -/
def get_product (db : DB) (product_id : Nat) : Response :=
  match db.queryGet product_id with
  | none => { status := 404, body := Body.empty, location := none }
  | some p => { status := 200, body := Body.json (JValue.jObj p.serialize), location := none }

/-- Embeds `update_product` (routes.py lines 124-141): content-type check, body
fetch, 404 when the id is absent (nothing written), otherwise deserialize into
the existing record (validation failure surfaces as 400), `update()`, and 200
with the serialized updated record. -/
def update_product (db : DB) (product_id : Nat) (req : Request) : Response × DB :=
  match check_content_type req.contentType "application/json" with
  | some resp => (resp, db)
  | none =>
    match db.queryGet product_id with
    | none => ({ status := 404, body := Body.empty, location := none }, db)
    | some product =>
      match product.deserialize req.reqBody with
      | Except.error msg => ({ status := 400, body := Body.json (JValue.jStr msg),
                               location := none }, db)
      | Except.ok p2 =>
        ({ status := 200, body := Body.json (JValue.jObj p2.serialize), location := none },
         db.updateId product_id p2)

/-- Embeds `delete_product` (routes.py lines 145-158): 404 when the id is
absent; otherwise delete the record and return `jsonify(status="Product
deleted")` — a 200 response with a JSON body, as the code is written. -/
def delete_product (db : DB) (product_id : Nat) : Response × DB :=
  match db.queryGet product_id with
  | none => ({ status := 404, body := Body.empty, location := none }, db)
  | some _ =>
    ({ status := 200,
       body := Body.json (JValue.jObj [("status", JValue.jStr "Product deleted")]),
       location := none }, db.deleteId product_id)

/-- Embeds `get_products_by_name` (routes.py lines 168-176): 200 with the
serialization of every stored record whose name equals the path value. -/
def get_products_by_name (db : DB) (name : String) : Response :=
  { status := 200,
    body := Body.json (JValue.jArr
      ((db.records.filter (fun p => p.name == name)).map (fun p => JValue.jObj p.serialize))),
    location := none }

/-- Embeds `get_products_by_category` (routes.py lines 177-185): the path value
is a string compared against the stored enum value, which the database holds by
its symbolic name. -/
def get_products_by_category (db : DB) (category : String) : Response :=
  { status := 200,
    body := Body.json (JValue.jArr
      ((db.records.filter (fun p => p.category.name == category)).map
        (fun p => JValue.jObj p.serialize))),
    location := none }

/-- Embeds `get_products_by_availability` (routes.py lines 186-194): 200 with
every stored record whose `available` flag equals the path value. -/
def get_products_by_availability (db : DB) (availability : Bool) : Response :=
  { status := 200,
    body := Body.json (JValue.jArr
      ((db.records.filter (fun p => p.available == availability)).map
        (fun p => JValue.jObj p.serialize))),
    location := none }

/-- Folding a sequence of POST /products requests over the store. -/
def postMany (db : DB) (reqs : List Request) : DB :=
  reqs.foldl (fun d r => (create_products d r).2) db

/-- A create request that succeeds: correct Content-Type and a body that
deserializes. -/
def validCreate (r : Request) : Prop :=
  r.contentType = some "application/json" ∧
  ∃ p, Product.deserialize Product.fresh r.reqBody = Except.ok p

/-- The element list of a JSON-array response (empty for any other shape),
used to state properties of the list endpoints. -/
def respArray (r : Response) : List JValue :=
  match r.body with
  | Body.json (JValue.jArr xs) => xs
  | _ => []

/-- The field list of a JSON-object response (empty for any other shape). -/
def respFields (r : Response) : List (String × JValue) :=
  match r.body with
  | Body.json (JValue.jObj fs) => fs
  | _ => []

/-- The Fedora payload of the spec's create scenario (section 8). -/
def fedoraBody : List (String × JValue) :=
  [ ("name", JValue.jStr "Fedora"),
    ("description", JValue.jStr "A red hat"),
    ("price", JValue.jNum { mantissa := 1250, exponent := 2 }),
    ("available", JValue.jBool true),
    ("category", JValue.jStr "CLOTHS") ]

/-- The Fedora create request with the correct Content-Type. -/
def fedoraReq : Request := { contentType := some "application/json", reqBody := fedoraBody }

/-- The Fedora record as stored under id 1. -/
def fedoraStored : Product :=
  { id := some 1, name := "Fedora", description := "A red hat",
    price := { mantissa := 1250, exponent := 2 }, available := true,
    category := Category.CLOTHS }

/-- A store holding exactly the Fedora record. -/
def oneProductDB : DB := { records := [fedoraStored], nextId := 2 }

/-- A create request whose Content-Type header is not JSON. -/
def plainTextReq : Request := { contentType := some "text/plain", reqBody := [] }

/-- A JSON create request whose body lacks the required `name` key. -/
def noNameReq : Request :=
  { contentType := some "application/json",
    reqBody := [("description", JValue.jStr "A red hat")] }

/-- A failed content-type check produces exactly the 415 response of
`check_content_type`, whichever way the header differs from the expectation. -/
theorem check_content_type_fails (h : Option String) (ct : String) (hne : h ≠ some ct) :
    check_content_type h ct =
      some { status := 415,
             body := Body.json (JValue.jStr ("Content-Type must be " ++ ct)),
             location := none } := by
  cases h with
  | none => rfl
  | some s =>
    have hs : ¬ s = ct := fun he => hne (by rw [he])
    simp [check_content_type, hs]

/-- A matching content-type check passes. -/
theorem check_content_type_passes (ct : String) :
    check_content_type (some ct) ct = none := by
  simp [check_content_type]

/-- Deleting id `i` leaves no record with id `i` to be found. -/
theorem queryGet_deleteId (db : DB) (i : Nat) : (db.deleteId i).queryGet i = none := by
  rw [DB.deleteId, DB.queryGet]
  simp [List.find?_eq_none, List.mem_filter]

/-- A valid create request grows the store by exactly one record and answers 201. -/
theorem create_products_valid_step (db : DB) (r : Request) (h : validCreate r) :
    (create_products db r).2.records.length = db.records.length + 1 ∧
    (create_products db r).1.status = 201 := by
  obtain ⟨hct, p, hd⟩ := h
  have hcc : check_content_type r.contentType "application/json" = none := by
    rw [hct]; exact check_content_type_passes "application/json"
  simp [create_products, hcc, hd, Product.create]

/-- Folding valid create requests adds one record per request. -/
theorem postMany_length (reqs : List Request) : ∀ db : DB, (∀ r ∈ reqs, validCreate r) →
    (postMany db reqs).records.length = db.records.length + reqs.length := by
  induction reqs with
  | nil => intro db _; simp [postMany]
  | cons r rs ih =>
    intro db h
    have h1 := (create_products_valid_step db r (h r (List.mem_cons_self r rs))).1
    have h2 := ih (create_products db r).2 (fun x hx => h x (List.mem_cons_of_mem r hx))
    have hstep : postMany db (r :: rs) = postMany (create_products db r).2 rs := rfl
    rw [hstep, h2, h1]
    simp only [List.length_cons]
    omega

/-- The symbolic category name round-trips through the enum lookup. -/
theorem fromName_name (c : Category) : Category.fromName c.name = some c := by
  cases c <;> rfl

/-- Claim C1: starting from the empty store, after N successful POST /products
creations a GET /products request returns status 200 whose body is the JSON
array of the serializations of the stored records, one entry per stored
record, and there are exactly N stored records (so N array entries). -/
theorem c1_list_after_creates (reqs : List Request)
    (h : ∀ r ∈ reqs, validCreate r) :
    (get_products (postMany DB.empty reqs)).status = 200 ∧
    respArray (get_products (postMany DB.empty reqs)) =
      (postMany DB.empty reqs).records.map (fun p => JValue.jObj p.serialize) ∧
    (postMany DB.empty reqs).records.length = reqs.length ∧
    (respArray (get_products (postMany DB.empty reqs))).length = reqs.length := by
  have hlen := postMany_length reqs DB.empty h
  have hlen0 : (postMany DB.empty reqs).records.length = reqs.length := by
    simpa [DB.empty] using hlen
  refine ⟨rfl, rfl, hlen0, ?_⟩
  simpa [respArray, get_products, List.length_map] using hlen0

/-- Witness for C1 at the singleton Fedora request list. -/
theorem c1_list_after_creates_witness :
    (postMany DB.empty [fedoraReq]).records.length = 1 :=
  (c1_list_after_creates [fedoraReq] (by
    intro r hr
    rw [List.mem_singleton] at hr
    subst hr
    exact ⟨rfl, _, rfl⟩)).2.2.1

/-- Claim C2, counterexample on the code as written: on a store holding the
record with id 1, DELETE /products/1 answers status 200 (not 204) with the
JSON body jsonify(status="Product deleted") (not empty); the record is
removed and the second DELETE answers 404. -/
theorem c2_delete_status_bug :
    (delete_product oneProductDB 1).1.status = 200 ∧
    ¬ (delete_product oneProductDB 1).1.status = 204 ∧
    (delete_product oneProductDB 1).1.body =
      Body.json (JValue.jObj [("status", JValue.jStr "Product deleted")]) ∧
    (delete_product oneProductDB 1).2.queryGet 1 = none ∧
    (delete_product (delete_product oneProductDB 1).2 1).1.status = 404 :=
  ⟨rfl, by decide, rfl, rfl, rfl⟩

/-- Claim C3: a POST /products or PUT /products/id request whose Content-Type
header is absent or differs from application/json answers 415 and leaves the
store unchanged, and the whole outcome is independent of the request body
(the rejection happens before the body is consulted). -/
theorem c3_wrong_content_type (db : DB) (req : Request) (i : Nat)
    (h : req.contentType ≠ some "application/json") :
    (create_products db req).1.status = 415 ∧ (create_products db req).2 = db ∧
    (update_product db i req).1.status = 415 ∧ (update_product db i req).2 = db ∧
    ∀ b : List (String × JValue),
      create_products db { contentType := req.contentType, reqBody := b } =
        create_products db req ∧
      update_product db i { contentType := req.contentType, reqBody := b } =
        update_product db i req := by
  have hcc := check_content_type_fails req.contentType "application/json" h
  refine ⟨?_, ?_, ?_, ?_, ?_⟩
  · simp [create_products, hcc]
  · simp [create_products, hcc]
  · simp [update_product, hcc]
  · simp [update_product, hcc]
  · intro b
    constructor
    · simp [create_products, hcc]
    · simp [update_product, hcc]

/-- Witness for C3 at a concrete text/plain request. -/
theorem c3_wrong_content_type_witness :
    (create_products DB.empty plainTextReq).1.status = 415 :=
  (c3_wrong_content_type DB.empty plainTextReq 1 (by decide)).1

/-- Claim C4: a JSON POST /products request whose body lacks the key `name`
answers 400 and leaves the store unchanged: no record is written. -/
theorem c4_missing_name (db : DB) (req : Request)
    (hct : req.contentType = some "application/json")
    (hname : jlookup req.reqBody "name" = none) :
    (create_products db req).1.status = 400 ∧ (create_products db req).2 = db := by
  have hcc : check_content_type req.contentType "application/json" = none := by
    rw [hct]; exact check_content_type_passes "application/json"
  simp [create_products, hcc, Product.deserialize, hname]

/-- Witness for C4 at a concrete body without `name`. -/
theorem c4_missing_name_witness :
    (create_products DB.empty noNameReq).1.status = 400 ∧
    (create_products DB.empty noNameReq).2 = DB.empty :=
  c4_missing_name DB.empty noNameReq rfl rfl

/-- Claim C5: the Fedora scenario. POSTing the valid Fedora payload to the
empty store answers 201, the response object carries the server-assigned
numeric id 1 and category "CLOTHS", a Location header is set, and a
subsequent GET /products/1 answers 200 with the identical field list. -/
theorem c5_create_fedora :
    (create_products DB.empty fedoraReq).1.status = 201 ∧
    jlookup (respFields (create_products DB.empty fedoraReq).1) "id" =
      some (JValue.jNum { mantissa := 1, exponent := 0 }) ∧
    jlookup (respFields (create_products DB.empty fedoraReq).1) "category" =
      some (JValue.jStr "CLOTHS") ∧
    (create_products DB.empty fedoraReq).1.location = some "/" ∧
    (get_product (create_products DB.empty fedoraReq).2 1).status = 200 ∧
    respFields (get_product (create_products DB.empty fedoraReq).2 1) =
      respFields (create_products DB.empty fedoraReq).1 :=
  ⟨rfl, rfl, rfl, rfl, rfl, rfl⟩

/-- Claim C6: GET /products/id answers 200 with the serialized stored record
when one with that id exists, 404 when none does, and always 404 right after
DELETE /products/id. -/
theorem c6_get_by_id (db : DB) (i : Nat) :
    (∀ p, db.queryGet i = some p →
      get_product db i =
        { status := 200, body := Body.json (JValue.jObj p.serialize), location := none }) ∧
    (db.queryGet i = none → (get_product db i).status = 404) ∧
    (get_product (delete_product db i).2 i).status = 404 := by
  refine ⟨?_, ?_, ?_⟩
  · intro p hp; simp [get_product, hp]
  · intro hn; simp [get_product, hn]
  · cases hq : db.queryGet i with
    | none => simp [delete_product, hq, get_product]
    | some p => simp [delete_product, hq, get_product, queryGet_deleteId]

/-- Witness for C6 at the one-product store. -/
theorem c6_get_by_id_witness :
    get_product oneProductDB 1 =
      { status := 200, body := Body.json (JValue.jObj fedoraStored.serialize),
        location := none } :=
  (c6_get_by_id oneProductDB 1).1 fedoraStored rfl

/-- Claim C7: a JSON PUT /products/id with a body that deserializes answers
200 with the serialized updated record and persists it when the id is stored,
and answers 404 leaving the store exactly unchanged (no record created) when
the id is not stored. -/
theorem c7_update (db : DB) (i : Nat) (req : Request)
    (hct : req.contentType = some "application/json") :
    (db.queryGet i = none →
      update_product db i req =
        ({ status := 404, body := Body.empty, location := none }, db)) ∧
    ∀ p p2, db.queryGet i = some p → Product.deserialize p req.reqBody = Except.ok p2 →
      update_product db i req =
        ({ status := 200, body := Body.json (JValue.jObj p2.serialize), location := none },
         db.updateId i p2) := by
  have hcc : check_content_type req.contentType "application/json" = none := by
    rw [hct]; exact check_content_type_passes "application/json"
  constructor
  · intro hn; simp [update_product, hcc, hn]
  · intro p p2 hp hd; simp [update_product, hcc, hp, hd]

/-- Witness for C7: PUTting the Fedora payload onto the stored Fedora record. -/
theorem c7_update_witness :
    update_product oneProductDB 1 fedoraReq =
      ({ status := 200, body := Body.json (JValue.jObj fedoraStored.serialize),
         location := none },
       oneProductDB.updateId 1 fedoraStored) :=
  (c7_update oneProductDB 1 fedoraReq rfl).2 fedoraStored fedoraStored rfl rfl

/-- Claim C8: each filter endpoint answers 200, its array holds exactly the
serializations of the stored records whose attribute equals the filter value
(exact match), and the array is empty when no record matches. -/
theorem c8_filters (db : DB) (v : String) (b : Bool) :
    (get_products_by_name db v).status = 200 ∧
    (get_products_by_category db v).status = 200 ∧
    (get_products_by_availability db b).status = 200 ∧
    (∀ x, x ∈ respArray (get_products_by_name db v) ↔
      ∃ p, p ∈ db.records ∧ p.name = v ∧ x = JValue.jObj p.serialize) ∧
    (∀ x, x ∈ respArray (get_products_by_category db v) ↔
      ∃ p, p ∈ db.records ∧ p.category.name = v ∧ x = JValue.jObj p.serialize) ∧
    (∀ x, x ∈ respArray (get_products_by_availability db b) ↔
      ∃ p, p ∈ db.records ∧ p.available = b ∧ x = JValue.jObj p.serialize) ∧
    ((∀ p ∈ db.records, p.name ≠ v) → respArray (get_products_by_name db v) = []) ∧
    ((∀ p ∈ db.records, p.category.name ≠ v) →
      respArray (get_products_by_category db v) = []) ∧
    ((∀ p ∈ db.records, p.available ≠ b) →
      respArray (get_products_by_availability db b) = []) := by
  refine ⟨rfl, rfl, rfl, ?_, ?_, ?_, ?_, ?_, ?_⟩
  · intro x
    simp only [respArray, get_products_by_name, List.mem_map, List.mem_filter, beq_iff_eq]
    constructor
    · rintro ⟨p, ⟨hm, hn⟩, he⟩; exact ⟨p, hm, hn, he.symm⟩
    · rintro ⟨p, hm, hn, he⟩; exact ⟨p, ⟨hm, hn⟩, he.symm⟩
  · intro x
    simp only [respArray, get_products_by_category, List.mem_map, List.mem_filter, beq_iff_eq]
    constructor
    · rintro ⟨p, ⟨hm, hn⟩, he⟩; exact ⟨p, hm, hn, he.symm⟩
    · rintro ⟨p, hm, hn, he⟩; exact ⟨p, ⟨hm, hn⟩, he.symm⟩
  · intro x
    simp only [respArray, get_products_by_availability, List.mem_map, List.mem_filter,
      beq_iff_eq]
    constructor
    · rintro ⟨p, ⟨hm, hn⟩, he⟩; exact ⟨p, hm, hn, he.symm⟩
    · rintro ⟨p, hm, hn, he⟩; exact ⟨p, ⟨hm, hn⟩, he.symm⟩
  · intro hnone
    simp only [respArray, get_products_by_name, List.map_eq_nil_iff, List.filter_eq_nil_iff,
      beq_iff_eq]
    exact hnone
  · intro hnone
    simp only [respArray, get_products_by_category, List.map_eq_nil_iff,
      List.filter_eq_nil_iff, beq_iff_eq]
    exact hnone
  · intro hnone
    simp only [respArray, get_products_by_availability, List.map_eq_nil_iff,
      List.filter_eq_nil_iff, beq_iff_eq]
    exact hnone

/-- Witness for C8: the stored Fedora record appears in the name filter. -/
theorem c8_filters_witness :
    JValue.jObj fedoraStored.serialize ∈
      respArray (get_products_by_name oneProductDB "Fedora") :=
  ((c8_filters oneProductDB "Fedora" true).2.2.2.1 (JValue.jObj fedoraStored.serialize)).mpr
    ⟨fedoraStored, by simp [oneProductDB], rfl, rfl⟩

/-- Claim C9: deserializing the serialization of any product reproduces it on
every attribute except the server-assigned id (which stays unassigned on the
fresh receiver); the serialization carries the category as its symbolic name
string and the price as the precision-preserving decimal. -/
theorem c9_roundtrip (p : Product) :
    Product.deserialize Product.fresh p.serialize = Except.ok { p with id := none } ∧
    jlookup p.serialize "category" = some (JValue.jStr p.category.name) ∧
    jlookup p.serialize "price" = some (JValue.jNum p.price) := by
  obtain ⟨id, n, d, pr, av, c⟩ := p
  cases id <;> cases c <;> exact ⟨rfl, rfl, rfl⟩

/-- Witness for C9 at the stored Fedora record. -/
theorem c9_roundtrip_witness :
    Product.deserialize Product.fresh fedoraStored.serialize =
      Except.ok { fedoraStored with id := none } :=
  (c9_roundtrip fedoraStored).1

/-- Claim C10: the content-type check passes exactly on the literal header
application/json; every other header value, including
"application/json; charset=utf-8", is answered with 415. -/
theorem c10_content_type_exact (h : Option String) :
    (check_content_type h "application/json" = none ↔ h = some "application/json") ∧
    (∀ resp, check_content_type h "application/json" = some resp → resp.status = 415) ∧
    check_content_type (some "application/json; charset=utf-8") "application/json" =
      some { status := 415,
             body := Body.json (JValue.jStr "Content-Type must be application/json"),
             location := none } := by
  refine ⟨⟨?_, ?_⟩, ?_, rfl⟩
  · intro hnone
    cases h with
    | none => exact absurd hnone (by simp [check_content_type])
    | some s =>
      by_cases hs : s = "application/json"
      · rw [hs]
      · exact absurd hnone (by simp [check_content_type, hs])
  · intro he; rw [he]; exact check_content_type_passes "application/json"
  · intro resp hr
    have := check_content_type_fails h "application/json"
    cases h with
    | none =>
      rw [this (fun hc => Option.noConfusion hc)] at hr
      rw [← Option.some.inj hr]
    | some s =>
      by_cases hs : s = "application/json"
      · rw [hs, check_content_type_passes "application/json"] at hr
        exact Option.noConfusion hr
      · rw [this (fun hc => hs (Option.some.inj hc))] at hr
        rw [← Option.some.inj hr]

/-- Witness for C10: the exact header passes the check. -/
theorem c10_content_type_exact_witness :
    check_content_type (some "application/json") "application/json" = none :=
  (c10_content_type_exact (some "application/json")).1.mpr rfl

end ProductStore
